import Mathlib

/-!
Shallow embedding of `zoul/airtable-export` (`src/main.ts`), a one-shot
synchronization utility that checks an Airtable table for recent
modifications and, past a cooldown threshold, exports the full table
contents as pretty-printed JSON to a file in a GitHub repository.

The effectful TypeScript code is embedded as pure Lean functions over an
explicit `World` oracle that supplies the responses of the two external
services (Airtable, GitHub) and of the host runtime (`new Date(...)`,
`Date.now`).  Every function returns, besides its value, the list of
observable effects (network calls and console logs) it performs, in order.
-/

/-- JSON-compatible JavaScript values (field values of Airtable records).
JavaScript numbers are restricted to integers, which covers every value the
program's serialization claims exercise. -/
inductive JSVal where
  | null : JSVal
  | bool (b : Bool) : JSVal
  | num (n : Int) : JSVal
  | str (s : String) : JSVal
  | arr (elems : List JSVal) : JSVal
  | obj (fields : List (String × JSVal)) : JSVal

/-- An Airtable record: an opaque record id plus the field mapping
(`record.fields` in the Airtable client). -/
structure JSRecord where
  id : String
  fields : List (String × JSVal)

/-- Mirrors `interface AirtableConfig` in `main.ts`. -/
structure AirtableConfig where
  apiKey : String
  databaseId : String
  tableName : String
  lastModifiedField : String
deriving Repr, DecidableEq

/-- Mirrors `interface GitHubConfig` in `main.ts`. -/
structure GitHubConfig where
  apiKey : String
  user : String
  repo : String
  path : String
  message : String
deriving Repr, DecidableEq

/-! ### JSON serialization  (`JSON.stringify(data, null, 2)`) -/

/-- Four-digit uppercase hexadecimal rendering used by `\uXXXX` escapes. -/
def hexDigit (n : Nat) : Char :=
  if n < 10 then Char.ofNat (48 + n) else Char.ofNat (65 + (n - 10))

/-- Render `n` as exactly four hexadecimal digits. -/
def hex4 (n : Nat) : String :=
  String.mk [hexDigit (n / 4096 % 16), hexDigit (n / 256 % 16),
             hexDigit (n / 16 % 16), hexDigit (n % 16)]

/-- Escape one character the way ECMAScript `QuoteJSONString` does. -/
def escapeJSONChar (c : Char) : String :=
  if c = '"' then "\\\""
  else if c = '\\' then "\\\\"
  else if c = '\x08' then "\\b"
  else if c = '\x0c' then "\\f"
  else if c = '\n' then "\\n"
  else if c = '\r' then "\\r"
  else if c = '\t' then "\\t"
  else if c.toNat < 32 then "\\u" ++ hex4 c.toNat
  else String.singleton c

/-- ECMAScript `QuoteJSONString`: a double-quoted, escaped string literal. -/
def quoteJSONString (s : String) : String :=
  "\"" ++ String.join (s.data.map escapeJSONChar) ++ "\""

mutual

/-- ECMAScript `SerializeJSONProperty` with `gap = "  "` (two spaces), i.e.
the serialization performed by `JSON.stringify(data, null, 2)`.  `indent`
is the indentation accumulated so far (`stepback` in the standard). -/
def stringifyJSON (indent : String) : JSVal → String
  | JSVal.null => "null"
  | JSVal.bool b => if b then "true" else "false"
  | JSVal.num n => toString n
  | JSVal.str s => quoteJSONString s
  | JSVal.arr [] => "[]"
  | JSVal.arr (x :: xs) =>
      let inner := indent ++ "  "
      "[\n" ++ inner ++
        String.intercalate (",\n" ++ inner) (stringifyJSONList inner (x :: xs)) ++
        "\n" ++ indent ++ "]"
  | JSVal.obj [] => "{}"
  | JSVal.obj (kv :: kvs) =>
      let inner := indent ++ "  "
      "\x7b\n" ++ inner ++
        String.intercalate (",\n" ++ inner) (stringifyJSONProps inner (kv :: kvs)) ++
        "\n" ++ indent ++ "\x7d"

/-- Serialize each array element at the given indentation. -/
def stringifyJSONList (indent : String) : List JSVal → List String
  | [] => []
  | x :: xs => stringifyJSON indent x :: stringifyJSONList indent xs

/-- Serialize each object member as `"key": value` at the given indentation. -/
def stringifyJSONProps (indent : String) : List (String × JSVal) → List String
  | [] => []
  | (k, v) :: kvs =>
      (quoteJSONString k ++ ": " ++ stringifyJSON indent v) ::
        stringifyJSONProps indent kvs

end

/-- Convert data to a JSON string (`const toJSON = (data) =>
JSON.stringify(data, null, 2)` in `main.ts`). -/
def toJSON (data : JSVal) : String := stringifyJSON "" data

/-! ### UTF-8 encoding  (`Buffer.from(string)`) -/

/-- UTF-8 encoding of one code point (as byte values).  On every Unicode
scalar value this agrees with standard UTF-8; the final catch-all branch is
unreachable for `Char`-derived code points. -/
def utf8EncodeCodepoint (n : Nat) : List Nat :=
  if n < 128 then [n]
  else if n < 2048 then [192 + n / 64, 128 + n % 64]
  else if n < 65536 then [224 + n / 4096, 128 + n / 64 % 64, 128 + n % 64]
  else if n < 2097152 then
    [240 + n / 262144, 128 + n / 4096 % 64, 128 + n / 64 % 64, 128 + n % 64]
  else [239, 191, 189]

/-- UTF-8 byte sequence of a string, as `Buffer.from(s)` produces. -/
def utf8Encode (s : String) : List Nat :=
  s.data.flatMap (fun c => utf8EncodeCodepoint c.toNat)

/-- Decode a code point back into a `Char`, refusing invalid scalar values. -/
def charOfNat? (n : Nat) : Option Char :=
  if n.isValidChar then some (Char.ofNat n) else none

/-- Combine a decoded character and a decoded tail (the `Option` bind used
by the UTF-8 decoder). -/
def mcons (c? : Option Char) (cs? : Option (List Char)) : Option (List Char) := do
  let c ← c?
  let cs ← cs?
  some (c :: cs)

mutual

/-- Decode a UTF-8 byte sequence into characters (inverse of `utf8Encode`
on encodings of valid scalar values). -/
def utf8Decode : List Nat → Option (List Char)
  | [] => some []
  | b :: rest =>
    if b < 128 then mcons (charOfNat? b) (utf8Decode rest)
    else if 192 ≤ b ∧ b < 224 then utf8DecodeTwo b rest
    else if 224 ≤ b ∧ b < 240 then utf8DecodeThree b rest
    else if 240 ≤ b ∧ b < 248 then utf8DecodeFour b rest
    else none
termination_by l => l.length

/-- Decode the continuation of a two-byte UTF-8 sequence. -/
def utf8DecodeTwo (b : Nat) : List Nat → Option (List Char)
  | b2 :: rest2 =>
    if 128 ≤ b2 ∧ b2 < 192 then
      mcons (charOfNat? ((b - 192) * 64 + (b2 - 128))) (utf8Decode rest2)
    else none
  | [] => none
termination_by l => l.length

/-- Decode the continuation of a three-byte UTF-8 sequence. -/
def utf8DecodeThree (b : Nat) : List Nat → Option (List Char)
  | b2 :: b3 :: rest3 =>
    if (128 ≤ b2 ∧ b2 < 192) ∧ (128 ≤ b3 ∧ b3 < 192) then
      mcons (charOfNat? ((b - 224) * 4096 + (b2 - 128) * 64 + (b3 - 128)))
        (utf8Decode rest3)
    else none
  | _ => none
termination_by l => l.length

/-- Decode the continuation of a four-byte UTF-8 sequence. -/
def utf8DecodeFour (b : Nat) : List Nat → Option (List Char)
  | b2 :: b3 :: b4 :: rest4 =>
    if (128 ≤ b2 ∧ b2 < 192) ∧ (128 ≤ b3 ∧ b3 < 192) ∧ (128 ≤ b4 ∧ b4 < 192) then
      mcons (charOfNat? ((b - 240) * 262144 + (b2 - 128) * 4096 +
                         (b3 - 128) * 64 + (b4 - 128)))
        (utf8Decode rest4)
    else none
  | _ => none
termination_by l => l.length

end

/-! ### Base64 encoding  (`Buffer.toString("base64")`) -/

/-- The character for a 6-bit group, per the standard base64 alphabet. -/
def b64char (n : Nat) : Char :=
  if n < 26 then Char.ofNat (65 + n)
  else if n < 52 then Char.ofNat (97 + (n - 26))
  else if n < 62 then Char.ofNat (48 + (n - 52))
  else if n = 62 then '+'
  else '/'

/-- The 6-bit value of a base64 alphabet character. -/
def b64val (c : Char) : Option Nat :=
  let n := c.toNat
  if 65 ≤ n ∧ n ≤ 90 then some (n - 65)
  else if 97 ≤ n ∧ n ≤ 122 then some (n - 97 + 26)
  else if 48 ≤ n ∧ n ≤ 57 then some (n - 48 + 52)
  else if c = '+' then some 62
  else if c = '/' then some 63
  else none

/-- Standard base64 encoding (with `=` padding) of a byte sequence. -/
def base64EncodeBytes : List Nat → List Char
  | b1 :: b2 :: b3 :: rest =>
      b64char (b1 / 4) :: b64char (b1 % 4 * 16 + b2 / 16) ::
      b64char (b2 % 16 * 4 + b3 / 64) :: b64char (b3 % 64) ::
      base64EncodeBytes rest
  | [b1, b2] => [b64char (b1 / 4), b64char (b1 % 4 * 16 + b2 / 16),
                 b64char (b2 % 16 * 4), '=']
  | [b1] => [b64char (b1 / 4), b64char (b1 % 4 * 16), '=', '=']
  | [] => []

/-- Base64 decoding (inverse of `base64EncodeBytes`). -/
def base64DecodeChars : List Char → Option (List Nat)
  | [] => some []
  | c1 :: c2 :: c3 :: c4 :: rest =>
    match b64val c1, b64val c2 with
    | some v1, some v2 =>
      if c3 = '=' then
        if c4 = '=' ∧ rest = [] then some [v1 * 4 + v2 / 16] else none
      else
        match b64val c3 with
        | some v3 =>
          if c4 = '=' then
            if rest = [] then some [v1 * 4 + v2 / 16, v2 % 16 * 16 + v3 / 4]
            else none
          else
            match b64val c4, base64DecodeChars rest with
            | some v4, some bs =>
                some ((v1 * 4 + v2 / 16) :: (v2 % 16 * 16 + v3 / 4) ::
                      (v3 % 4 * 64 + v4) :: bs)
            | _, _ => none
        | none => none
    | _, _ => none
  | _ => none

/-- Convert data to a Base64 encoded string (`const toBase64 = (data) =>
Buffer.from(data).toString("base64")` in `main.ts`). -/
def toBase64 (data : String) : String :=
  String.mk (base64EncodeBytes (utf8Encode data))

/-- Decode a base64 string and interpret the bytes as UTF-8 text: the
inverse of `toBase64`. -/
def decodeBase64Text (s : String) : Option String :=
  (base64DecodeChars s.data).bind (fun bs => (utf8Decode bs).map String.mk)

/-! ### The effect-trace model of the program -/

/-- An observable effect of a run: a network call against Airtable or
GitHub, or a console log line.  `select` records the query shape used by
the freshness check (projected fields, sort field, descending flag, max
record count); `selectAll` is the unrestricted `table.select().all()`
fetch; `httpGet` is the unauthenticated `axios.get`;
`createOrUpdateFileContents` is the Octokit write call with all its
parameters. -/
inductive Effect where
  | select (fields : List String) (sortField : String) (sortDesc : Bool)
      (maxRecords : Option Nat) : Effect
  | selectAll : Effect
  | httpGet (url : String) : Effect
  | createOrUpdateFileContents (owner repo path message sha content : String) : Effect
  | logInfo (msg : String) : Effect
  | logWarn (msg : String) : Effect
deriving Repr, DecidableEq

/-- A JavaScript `Date`: either a valid instant (`getTime()` in
milliseconds) or the `Invalid Date` value, whose `getTime()` is `NaN`. -/
inductive JSDate where
  | valid (ms : Int) : JSDate
  | invalid : JSDate
deriving Repr, DecidableEq

/-- The oracle supplying the responses of the external world for one run:
the records returned by the freshness query, the host's `new Date(string)`
parser, the current time, the records returned by the full fetch, the HTTP
GET responses keyed by URL (an `Except` models an axios rejection, e.g.
404 when the target file does not exist), and the outcome of the Octokit
write. -/
structure World where
  latestMatches : List JSRecord
  parseDate : JSVal → JSDate
  nowMs : Int
  allRecords : List JSRecord
  httpGet : String → Except String String
  createResult : Except String Unit

/-- `new Date(v)` for the field value `v` looked up on a record: an absent
field (`undefined`) always yields `Invalid Date`; otherwise the host
parser decides. -/
def jsNewDate (w : World) : Option JSVal → JSDate
  | none => JSDate.invalid
  | some v => w.parseDate v

/-- JavaScript object property lookup on a field mapping. -/
def lookupField (fields : List (String × JSVal)) (key : String) : Option JSVal :=
  (fields.find? (fun p => p.1 = key)).map Prod.snd

/-- `(now.getTime() - lastUpdate.getTime()) / 1000`: the elapsed seconds,
or `none` standing for JavaScript `NaN` when the date is invalid. -/
def timeSince (lastUpdate : JSDate) (nowMs : Int) : Option ℚ :=
  match lastUpdate with
  | JSDate.valid ms => some (((nowMs - ms : Int) : ℚ) / 1000)
  | JSDate.invalid => none

/-- JavaScript `<` on a possibly-NaN left operand: any comparison with
`NaN` is `false`. -/
def jsLt (x : Option ℚ) (y : ℚ) : Bool :=
  match x with
  | some q => decide (q < y)
  | none => false

/-- Embeds `getLastAirtableModificationTime` from `main.ts`: issue the
projected, descending-sorted, single-record query; if a record came back,
parse its timestamp field with `new Date`, else return `null`. -/
def getLastAirtableModificationTime (w : World) (lastModifiedField : String) :
    List Effect × Option JSDate :=
  let trace := [Effect.select [lastModifiedField] lastModifiedField true (some 1)]
  match w.latestMatches.head? with
  | some mostRecentRecord =>
      (trace, some (jsNewDate w (lookupField mostRecentRecord.fields lastModifiedField)))
  | none => (trace, none)

/-- The URL built by `getTargetFileSHA` in `main.ts`. -/
def githubContentsURL (config : GitHubConfig) : String :=
  "https://api.github.com/repos/" ++ config.user ++ "/" ++ config.repo ++
    "/contents/" ++ config.path

/-- Embeds `getTargetFileSHA` from `main.ts`: an unauthenticated
`axios.get` of the contents URL, returning the `sha` field of the
response; a rejected request propagates as an error. -/
def getTargetFileSHA (w : World) (config : GitHubConfig) :
    List Effect × Except String String :=
  ([Effect.httpGet (githubContentsURL config)], w.httpGet (githubContentsURL config))

/-- The informational log line of the below-threshold branch. -/
def skipMessage (timeTreshold : ℚ) : String :=
  "Last update below update treshold (" ++ toString timeTreshold ++
    " seconds), skipping update."

/-- The informational log line of the over-threshold branch. -/
def exportMessage : String :=
  "Last update time over update treshold, will try to export data."

/-- The warning logged when no modification time could be determined. -/
def noDataMessage : String :=
  "Unable to determine last table update time, no changes done."

/-- Embeds `exportAirtableDataToGitHub` from `main.ts`: freshness check,
threshold gate, then (conditionally) fetch-all, hash read and
create-or-update, with the default cooldown `5 * 60` seconds. -/
def exportAirtableDataToGitHub (w : World) (airtableConfig : AirtableConfig)
    (githubConfig : GitHubConfig) (timeTreshold : ℚ := 5 * 60) :
    List Effect × Except String Unit :=
  let fresh := getLastAirtableModificationTime w airtableConfig.lastModifiedField
  match fresh.2 with
  | some lastUpdate =>
      let timeSinceLastUpdate := timeSince lastUpdate w.nowMs
      if jsLt timeSinceLastUpdate timeTreshold then
        (fresh.1 ++ [Effect.logInfo (skipMessage timeTreshold)], Except.ok ())
      else
        let fetched := w.allRecords
        let shaCall := getTargetFileSHA w githubConfig
        match shaCall.2 with
        | Except.error e =>
            (fresh.1 ++ [Effect.logInfo exportMessage, Effect.selectAll] ++ shaCall.1,
             Except.error e)
        | Except.ok currentSHA =>
            let uploadData :=
              toBase64 (toJSON (JSVal.arr (fetched.map (fun m => JSVal.obj m.fields))))
            (fresh.1 ++ [Effect.logInfo exportMessage, Effect.selectAll] ++ shaCall.1 ++
               [Effect.createOrUpdateFileContents githubConfig.user githubConfig.repo
                  githubConfig.path githubConfig.message currentSHA uploadData],
             w.createResult)
  | none =>
      (fresh.1 ++ [Effect.logWarn noDataMessage], Except.ok ())

/-- Embeds `envOrDie` from `main.ts`: return the environment variable's
value, or throw a textual error when it is undefined.  Note the check is
`val == null`: a present-but-empty string is returned unchanged. -/
def envOrDie (env : String → Option String) (key : String) : Except String String :=
  match env key with
  | none => Except.error ("Please define the " ++ key ++ " env variable.")
  | some val => Except.ok val

namespace AirtableExport

/-- Embeds `main` from `main.ts`: build the two configurations (reading
the two credentials from the environment, in source order) and run the
export with the default threshold.  A thrown configuration error
propagates before any effect is performed. -/
def main (env : String → Option String) (w : World) :
    List Effect × Except String Unit :=
  match envOrDie env "AIRTABLE_API_KEY" with
  | Except.error e => ([], Except.error e)
  | Except.ok airtableKey =>
    match envOrDie env "GITHUB_API_TOKEN" with
    | Except.error e => ([], Except.error e)
    | Except.ok githubKey =>
      exportAirtableDataToGitHub w
        { apiKey := airtableKey, databaseId := "apppZX1QC3fl1RTBM",
          tableName := "Web Export Test", lastModifiedField := "Last Update" }
        { apiKey := githubKey, user := "zoul", repo := "airtable-export",
          path := "data.json", message := "Update data" }

end AirtableExport

/-! ### Concrete sample data (used by witnesses and counterexamples) -/

/-- A sample Airtable configuration. -/
def demoAirtableConfig : AirtableConfig :=
  { apiKey := "atkey", databaseId := "app1", tableName := "T",
    lastModifiedField := "Last Update" }

/-- A sample GitHub configuration. -/
def demoGitHubConfig : GitHubConfig :=
  { apiKey := "ghtoken", user := "zoul", repo := "airtable-export",
    path := "data.json", message := "Update data" }

/-- A sample record carrying a parseable timestamp. -/
def demoRecord : JSRecord :=
  { id := "rec1", fields := [("Last Update", JSVal.str "2020-01-01T00:00:00.000Z")] }

/-- The two-record table `[{"A": 1}, {"B": 2}]` from the specification's
round-trip scenario. -/
def demoRecords : List JSRecord :=
  [{ id := "recA", fields := [("A", JSVal.num 1)] },
   { id := "recB", fields := [("B", JSVal.num 2)] }]

/-- A sample host date parser: it recognizes exactly one ISO timestamp
(1577836800000 ms = 2020-01-01T00:00:00Z) and yields `Invalid Date` on
everything else. -/
def demoParse (v : JSVal) : JSDate :=
  match v with
  | JSVal.str "2020-01-01T00:00:00.000Z" => JSDate.valid 1577836800000
  | _ => JSDate.invalid

/-- A world where the latest update was 600 seconds ago and the GitHub
reads succeed. -/
def demoWorld : World :=
  { latestMatches := [demoRecord], parseDate := demoParse,
    nowMs := 1577836800000 + 600 * 1000, allRecords := demoRecords,
    httpGet := fun _ => Except.ok "oldsha", createResult := Except.ok () }

/-- Like `demoWorld`, but the latest update was only 10 seconds ago. -/
def demoWorldRecent : World :=
  { demoWorld with nowMs := 1577836800000 + 10 * 1000 }

/-- Like `demoWorld`, but the source table has zero records. -/
def demoWorldEmpty : World :=
  { demoWorld with latestMatches := [], allRecords := [] }

/-- Like `demoWorld`, but the destination file does not exist, so the
content-hash read is rejected. -/
def demoWorldNoFile : World :=
  { demoWorld with httpGet := fun _ => Except.error "Request failed with status code 404" }

/-- A record whose timestamp field does not parse as a date-time. -/
def demoBadRecord : JSRecord :=
  { id := "rec1", fields := [("Last Update", JSVal.str "not a date")] }

/-- Like `demoWorld`, but the most recent record carries the unparsable
timestamp. -/
def demoWorldBadStamp : World :=
  { demoWorld with latestMatches := [demoBadRecord] }

/-! ### Round-trip lemmas for base64 and UTF-8 -/

theorem b64val_b64char : ∀ n, n < 64 → b64val (b64char n) = some n := by decide

theorem b64char_ne_pad : ∀ n, n < 64 → b64char n ≠ '=' := by decide

theorem base64DecodeChars_encode (bs : List Nat) (h : ∀ b ∈ bs, b < 256) :
    base64DecodeChars (base64EncodeBytes bs) = some bs := by
  match bs with
  | [] => rfl
  | [b1] =>
    have hb1 : b1 < 256 := h b1 (by simp)
    have e1 := b64val_b64char (b1 / 4) (by omega)
    have e2 := b64val_b64char (b1 % 4 * 16) (by omega)
    rw [base64EncodeBytes, base64DecodeChars, e1, e2]
    simp only [reduceIte, Option.some.injEq, List.cons.injEq, and_true, if_pos rfl]
    omega
  | [b1, b2] =>
    have hb1 : b1 < 256 := h b1 (by simp)
    have hb2 : b2 < 256 := h b2 (by simp)
    have e1 := b64val_b64char (b1 / 4) (by omega)
    have e2 := b64val_b64char (b1 % 4 * 16 + b2 / 16) (by omega)
    have e3 := b64val_b64char (b2 % 16 * 4) (by omega)
    have ne3 := b64char_ne_pad (b2 % 16 * 4) (by omega)
    rw [base64EncodeBytes, base64DecodeChars, e1, e2]
    simp only [if_neg ne3, e3, reduceIte, if_pos rfl, Option.some.injEq,
      List.cons.injEq, and_true]
    omega
  | b1 :: b2 :: b3 :: rest =>
    have hb1 : b1 < 256 := h b1 (by simp)
    have hb2 : b2 < 256 := h b2 (by simp)
    have hb3 : b3 < 256 := h b3 (by simp)
    have ih := base64DecodeChars_encode rest (fun b hb => h b (by simp [hb]))
    have e1 := b64val_b64char (b1 / 4) (by omega)
    have e2 := b64val_b64char (b1 % 4 * 16 + b2 / 16) (by omega)
    have e3 := b64val_b64char (b2 % 16 * 4 + b3 / 64) (by omega)
    have e4 := b64val_b64char (b3 % 64) (by omega)
    have ne3 := b64char_ne_pad (b2 % 16 * 4 + b3 / 64) (by omega)
    have ne4 := b64char_ne_pad (b3 % 64) (by omega)
    rw [base64EncodeBytes, base64DecodeChars, e1, e2]
    simp only [if_neg ne3, e3, if_neg ne4, e4, ih, Option.some.injEq,
      List.cons.injEq, and_true]
    refine ⟨by omega, by omega, by omega⟩

theorem utf8EncodeCodepoint_lt (n : Nat) : ∀ b ∈ utf8EncodeCodepoint n, b < 256 := by
  intro b hb
  unfold utf8EncodeCodepoint at hb
  split_ifs at hb <;> simp_all <;> omega

theorem utf8Encode_lt (s : String) : ∀ b ∈ utf8Encode s, b < 256 := by
  intro b hb
  unfold utf8Encode at hb
  rw [List.mem_flatMap] at hb
  obtain ⟨c, _, hc⟩ := hb
  exact utf8EncodeCodepoint_lt _ _ hc

theorem charOfNat?_toNat (c : Char) : charOfNat? c.toNat = some c := by
  have h : c.toNat.isValidChar := c.valid
  simp [charOfNat?, h, Char.ofNat_toNat]

theorem mcons_some (c : Char) (cs? : Option (List Char)) :
    mcons (some c) cs? = cs?.map (fun cs => c :: cs) := by
  cases cs? <;> rfl

theorem utf8Decode_encode_cons (c : Char) (rest : List Nat) :
    utf8Decode (utf8EncodeCodepoint c.toNat ++ rest) =
      (utf8Decode rest).map (fun cs => c :: cs) := by
  have hv : c.toNat < 55296 ∨ (57343 < c.toNat ∧ c.toNat < 1114112) := c.valid
  have hc := charOfNat?_toNat c
  by_cases h1 : c.toNat < 128
  · have henc : utf8EncodeCodepoint c.toNat = [c.toNat] := by
      unfold utf8EncodeCodepoint; rw [if_pos h1]
    rw [henc, List.cons_append, List.nil_append, utf8Decode, if_pos h1, hc,
      mcons_some]
  · by_cases h2 : c.toNat < 2048
    · have henc : utf8EncodeCodepoint c.toNat =
          [192 + c.toNat / 64, 128 + c.toNat % 64] := by
        unfold utf8EncodeCodepoint; rw [if_neg h1, if_pos h2]
      have ha1 : ¬ (192 + c.toNat / 64 < 128) := by omega
      have ha2 : 192 ≤ 192 + c.toNat / 64 := by omega
      have ha3 : 192 + c.toNat / 64 < 224 := by omega
      have ha4 : 128 ≤ 128 + c.toNat % 64 := by omega
      have ha5 : 128 + c.toNat % 64 < 192 := by omega
      have harith : (192 + c.toNat / 64 - 192) * 64 + (128 + c.toNat % 64 - 128) =
          c.toNat := by omega
      rw [henc, List.cons_append, List.cons_append, List.nil_append, utf8Decode,
        if_neg ha1, if_pos ⟨ha2, ha3⟩, utf8DecodeTwo, if_pos ⟨ha4, ha5⟩, harith,
        hc, mcons_some]
    · by_cases h3 : c.toNat < 65536
      · have henc : utf8EncodeCodepoint c.toNat =
            [224 + c.toNat / 4096, 128 + c.toNat / 64 % 64, 128 + c.toNat % 64] := by
          unfold utf8EncodeCodepoint; rw [if_neg h1, if_neg h2, if_pos h3]
        have ha1 : ¬ (224 + c.toNat / 4096 < 128) := by omega
        have ha2 : ¬ (192 ≤ 224 + c.toNat / 4096 ∧ 224 + c.toNat / 4096 < 224) := by
          omega
        have ha3 : 224 ≤ 224 + c.toNat / 4096 := by omega
        have ha4 : 224 + c.toNat / 4096 < 240 := by omega
        have ha5 : 128 ≤ 128 + c.toNat / 64 % 64 := by omega
        have ha6 : 128 + c.toNat / 64 % 64 < 192 := by omega
        have ha7 : 128 ≤ 128 + c.toNat % 64 := by omega
        have ha8 : 128 + c.toNat % 64 < 192 := by omega
        have harith : (224 + c.toNat / 4096 - 224) * 4096 +
            (128 + c.toNat / 64 % 64 - 128) * 64 + (128 + c.toNat % 64 - 128) =
            c.toNat := by omega
        rw [henc, List.cons_append, List.cons_append, List.cons_append,
          List.nil_append, utf8Decode, if_neg ha1, if_neg ha2,
          if_pos ⟨ha3, ha4⟩, utf8DecodeThree, if_pos ⟨⟨ha5, ha6⟩, ha7, ha8⟩,
          harith, hc, mcons_some]
      · have h4 : c.toNat < 2097152 := by omega
        have henc : utf8EncodeCodepoint c.toNat =
            [240 + c.toNat / 262144, 128 + c.toNat / 4096 % 64,
             128 + c.toNat / 64 % 64, 128 + c.toNat % 64] := by
          unfold utf8EncodeCodepoint; rw [if_neg h1, if_neg h2, if_neg h3, if_pos h4]
        have ha1 : ¬ (240 + c.toNat / 262144 < 128) := by omega
        have ha2 : ¬ (192 ≤ 240 + c.toNat / 262144 ∧ 240 + c.toNat / 262144 < 224) := by
          omega
        have ha3 : ¬ (224 ≤ 240 + c.toNat / 262144 ∧ 240 + c.toNat / 262144 < 240) := by
          omega
        have ha4 : 240 ≤ 240 + c.toNat / 262144 := by omega
        have ha5 : 240 + c.toNat / 262144 < 248 := by omega
        have ha6 : 128 ≤ 128 + c.toNat / 4096 % 64 := by omega
        have ha7 : 128 + c.toNat / 4096 % 64 < 192 := by omega
        have ha8 : 128 ≤ 128 + c.toNat / 64 % 64 := by omega
        have ha9 : 128 + c.toNat / 64 % 64 < 192 := by omega
        have ha10 : 128 ≤ 128 + c.toNat % 64 := by omega
        have ha11 : 128 + c.toNat % 64 < 192 := by omega
        have harith : (240 + c.toNat / 262144 - 240) * 262144 +
            (128 + c.toNat / 4096 % 64 - 128) * 4096 +
            (128 + c.toNat / 64 % 64 - 128) * 64 + (128 + c.toNat % 64 - 128) =
            c.toNat := by omega
        rw [henc, List.cons_append, List.cons_append, List.cons_append,
          List.cons_append, List.nil_append, utf8Decode, if_neg ha1, if_neg ha2,
          if_neg ha3, if_pos ⟨ha4, ha5⟩, utf8DecodeFour,
          if_pos ⟨⟨ha6, ha7⟩, ⟨ha8, ha9⟩, ha10, ha11⟩, harith, hc, mcons_some]

theorem utf8Decode_utf8Encode (s : String) :
    utf8Decode (utf8Encode s) = some s.data := by
  unfold utf8Encode
  induction s.data with
  | nil => rw [List.flatMap_nil, utf8Decode]
  | cons c cs ih =>
    rw [List.flatMap_cons, utf8Decode_encode_cons, ih]
    rfl

theorem decodeBase64Text_toBase64 (s : String) :
    decodeBase64Text (toBase64 s) = some s := by
  show (base64DecodeChars (base64EncodeBytes (utf8Encode s))).bind
      (fun bs => (utf8Decode bs).map String.mk) = some s
  rw [base64DecodeChars_encode _ (utf8Encode_lt s)]
  show (utf8Decode (utf8Encode s)).map String.mk = some s
  rw [utf8Decode_utf8Encode s]
  rfl

/-! ### Behavior of a full run, by case -/

/-- When the freshness query finds a record whose timestamp parses to a
valid instant at least the threshold in the past and the content-hash read
succeeds, the run performs exactly: the freshness query, the over-threshold
log, one fetch-all, one hash read, and one create-or-update carrying the
base64-encoded pretty-printed JSON of the records' field mappings. -/
theorem export_run_over_threshold (w : World) (ac : AirtableConfig) (gc : GitHubConfig)
    (t : ℚ) (r : JSRecord) (ms : Int) (sha : String)
    (hrec : w.latestMatches.head? = some r)
    (hparse : jsNewDate w (lookupField r.fields ac.lastModifiedField) = JSDate.valid ms)
    (hover : t ≤ ((w.nowMs - ms : Int) : ℚ) / 1000)
    (hsha : w.httpGet (githubContentsURL gc) = Except.ok sha) :
    exportAirtableDataToGitHub w ac gc t =
      ([Effect.select [ac.lastModifiedField] ac.lastModifiedField true (some 1),
        Effect.logInfo exportMessage,
        Effect.selectAll,
        Effect.httpGet (githubContentsURL gc),
        Effect.createOrUpdateFileContents gc.user gc.repo gc.path gc.message sha
          (toBase64 (toJSON (JSVal.arr (w.allRecords.map (fun m => JSVal.obj m.fields)))))],
       w.createResult) := by
  have hnl : ¬ (((w.nowMs - ms : Int) : ℚ) / 1000 < t) := not_lt.2 hover
  unfold exportAirtableDataToGitHub getLastAirtableModificationTime getTargetFileSHA
  rw [hrec]
  simp only [hparse, timeSince, jsLt, hnl, decide_eq_true_eq, if_neg, if_false,
    decide_eq_false_iff_not, hsha, List.cons_append, List.nil_append, List.append_nil]

/-- When the timestamp parses to a valid instant strictly within the
threshold, the run stops after the freshness query with an informational
log and no further effect. -/
theorem export_run_below_threshold (w : World) (ac : AirtableConfig) (gc : GitHubConfig)
    (t : ℚ) (r : JSRecord) (ms : Int)
    (hrec : w.latestMatches.head? = some r)
    (hparse : jsNewDate w (lookupField r.fields ac.lastModifiedField) = JSDate.valid ms)
    (hbelow : ((w.nowMs - ms : Int) : ℚ) / 1000 < t) :
    exportAirtableDataToGitHub w ac gc t =
      ([Effect.select [ac.lastModifiedField] ac.lastModifiedField true (some 1),
        Effect.logInfo (skipMessage t)], Except.ok ()) := by
  unfold exportAirtableDataToGitHub getLastAirtableModificationTime
  rw [hrec]
  simp only [hparse, timeSince, jsLt, hbelow, decide_eq_true_eq, if_pos,
    List.cons_append, List.nil_append]

/-- When the content-hash read is rejected, the failure propagates and the
run ends without a create-or-update call. -/
theorem export_run_sha_error (w : World) (ac : AirtableConfig) (gc : GitHubConfig)
    (t : ℚ) (r : JSRecord) (ms : Int) (e : String)
    (hrec : w.latestMatches.head? = some r)
    (hparse : jsNewDate w (lookupField r.fields ac.lastModifiedField) = JSDate.valid ms)
    (hover : t ≤ ((w.nowMs - ms : Int) : ℚ) / 1000)
    (hsha : w.httpGet (githubContentsURL gc) = Except.error e) :
    exportAirtableDataToGitHub w ac gc t =
      ([Effect.select [ac.lastModifiedField] ac.lastModifiedField true (some 1),
        Effect.logInfo exportMessage,
        Effect.selectAll,
        Effect.httpGet (githubContentsURL gc)],
       Except.error e) := by
  have hnl : ¬ (((w.nowMs - ms : Int) : ℚ) / 1000 < t) := not_lt.2 hover
  unfold exportAirtableDataToGitHub getLastAirtableModificationTime getTargetFileSHA
  rw [hrec]
  simp only [hparse, timeSince, jsLt, hnl, decide_eq_true_eq, if_neg, if_false,
    decide_eq_false_iff_not, hsha, List.cons_append, List.nil_append, List.append_nil]

/-- When the freshness query returns no record, the run stops after the
query with a warning and no further effect. -/
theorem export_run_no_record (w : World) (ac : AirtableConfig) (gc : GitHubConfig)
    (t : ℚ) (hrec : w.latestMatches = []) :
    exportAirtableDataToGitHub w ac gc t =
      ([Effect.select [ac.lastModifiedField] ac.lastModifiedField true (some 1),
        Effect.logWarn noDataMessage], Except.ok ()) := by
  unfold exportAirtableDataToGitHub getLastAirtableModificationTime
  rw [hrec]
  simp only [List.head?_nil, List.cons_append, List.nil_append]

/-- When the timestamp does not parse (`Invalid Date`), the NaN comparison
is false and the run takes the full export path. -/
theorem export_run_invalid_date (w : World) (ac : AirtableConfig) (gc : GitHubConfig)
    (t : ℚ) (r : JSRecord) (v : JSVal) (sha : String)
    (hrec : w.latestMatches.head? = some r)
    (hlookup : lookupField r.fields ac.lastModifiedField = some v)
    (hparse : w.parseDate v = JSDate.invalid)
    (hsha : w.httpGet (githubContentsURL gc) = Except.ok sha) :
    exportAirtableDataToGitHub w ac gc t =
      ([Effect.select [ac.lastModifiedField] ac.lastModifiedField true (some 1),
        Effect.logInfo exportMessage,
        Effect.selectAll,
        Effect.httpGet (githubContentsURL gc),
        Effect.createOrUpdateFileContents gc.user gc.repo gc.path gc.message sha
          (toBase64 (toJSON (JSVal.arr (w.allRecords.map (fun m => JSVal.obj m.fields)))))],
       w.createResult) := by
  unfold exportAirtableDataToGitHub getLastAirtableModificationTime getTargetFileSHA
  rw [hrec]
  simp only [hlookup, jsNewDate, hparse, timeSince, jsLt, Bool.false_eq_true,
    if_false, hsha, List.cons_append, List.nil_append, List.append_nil]

/-! ### The claims -/

/-- C1: whenever the freshness query returns a modification time and the
elapsed time from it to now is at least the cooldown threshold (and the
destination hash read returns a hash), `exportAirtableDataToGitHub`
performs the export exactly once end-to-end: one fetch of all records,
then one read of the destination file's content hash, then one
create-or-update call supplying the new base64 content, the target path,
the commit message, and the previously read hash as precondition. -/
theorem claim1_over_threshold_exports_once (w : World) (ac : AirtableConfig)
    (gc : GitHubConfig) (t : ℚ) (r : JSRecord) (ms : Int) (sha : String)
    (hrec : w.latestMatches.head? = some r)
    (hparse : jsNewDate w (lookupField r.fields ac.lastModifiedField) = JSDate.valid ms)
    (hover : t ≤ ((w.nowMs - ms : Int) : ℚ) / 1000)
    (hsha : w.httpGet (githubContentsURL gc) = Except.ok sha) :
    exportAirtableDataToGitHub w ac gc t =
      ([Effect.select [ac.lastModifiedField] ac.lastModifiedField true (some 1),
        Effect.logInfo exportMessage,
        Effect.selectAll,
        Effect.httpGet (githubContentsURL gc),
        Effect.createOrUpdateFileContents gc.user gc.repo gc.path gc.message sha
          (toBase64 (toJSON (JSVal.arr (w.allRecords.map (fun m => JSVal.obj m.fields)))))],
       w.createResult) :=
  export_run_over_threshold w ac gc t r ms sha hrec hparse hover hsha

/-- Witness for C1: in `demoWorld` (latest update 600 s ago, threshold
300 s) the run is exactly one fetch-all, one hash read, one write. -/
theorem claim1_witness :
    exportAirtableDataToGitHub demoWorld demoAirtableConfig demoGitHubConfig 300 =
      ([Effect.select ["Last Update"] "Last Update" true (some 1),
        Effect.logInfo exportMessage,
        Effect.selectAll,
        Effect.httpGet (githubContentsURL demoGitHubConfig),
        Effect.createOrUpdateFileContents "zoul" "airtable-export" "data.json"
          "Update data" "oldsha"
          (toBase64 (toJSON (JSVal.arr (demoRecords.map (fun m => JSVal.obj m.fields)))))],
       Except.ok ()) :=
  claim1_over_threshold_exports_once demoWorld demoAirtableConfig demoGitHubConfig 300
    demoRecord 1577836800000 "oldsha" rfl rfl (by norm_num [demoWorld]) rfl

/-- C2: whenever the freshness query returns a modification time and the
elapsed time since it is strictly below the cooldown threshold, the run
logs an informational message and returns successfully with no fetch-all,
no hash read, and no write. -/
theorem claim2_below_threshold_skips (w : World) (ac : AirtableConfig)
    (gc : GitHubConfig) (t : ℚ) (r : JSRecord) (ms : Int)
    (hrec : w.latestMatches.head? = some r)
    (hparse : jsNewDate w (lookupField r.fields ac.lastModifiedField) = JSDate.valid ms)
    (hbelow : ((w.nowMs - ms : Int) : ℚ) / 1000 < t) :
    exportAirtableDataToGitHub w ac gc t =
      ([Effect.select [ac.lastModifiedField] ac.lastModifiedField true (some 1),
        Effect.logInfo (skipMessage t)], Except.ok ()) :=
  export_run_below_threshold w ac gc t r ms hrec hparse hbelow

/-- Witness for C2: in `demoWorldRecent` (latest update 10 s ago,
threshold 300 s) the run stops at the informational log. -/
theorem claim2_witness :
    exportAirtableDataToGitHub demoWorldRecent demoAirtableConfig demoGitHubConfig 300 =
      ([Effect.select ["Last Update"] "Last Update" true (some 1),
        Effect.logInfo (skipMessage 300)], Except.ok ()) :=
  claim2_below_threshold_skips demoWorldRecent demoAirtableConfig demoGitHubConfig 300
    demoRecord 1577836800000 rfl rfl (by norm_num [demoWorldRecent, demoWorld])

/-- C3: for a source table with zero records the freshness query returns
`none` (JavaScript `null`) rather than raising, and the run logs a warning
and performs no export network call. -/
theorem claim3_empty_table_no_export (w : World) (ac : AirtableConfig)
    (gc : GitHubConfig) (t : ℚ) (hrec : w.latestMatches = []) :
    getLastAirtableModificationTime w ac.lastModifiedField =
      ([Effect.select [ac.lastModifiedField] ac.lastModifiedField true (some 1)], none) ∧
    exportAirtableDataToGitHub w ac gc t =
      ([Effect.select [ac.lastModifiedField] ac.lastModifiedField true (some 1),
        Effect.logWarn noDataMessage], Except.ok ()) := by
  refine ⟨?_, export_run_no_record w ac gc t hrec⟩
  unfold getLastAirtableModificationTime
  rw [hrec]
  rfl

/-- Witness for C3: the empty-table world stops at the warning. -/
theorem claim3_witness :
    getLastAirtableModificationTime demoWorldEmpty "Last Update" =
      ([Effect.select ["Last Update"] "Last Update" true (some 1)], none) ∧
    exportAirtableDataToGitHub demoWorldEmpty demoAirtableConfig demoGitHubConfig 300 =
      ([Effect.select ["Last Update"] "Last Update" true (some 1),
        Effect.logWarn noDataMessage], Except.ok ()) :=
  claim3_empty_table_no_export demoWorldEmpty demoAirtableConfig demoGitHubConfig 300 rfl

/-- C4: the uploaded content is the base64 encoding of the pretty-printed
(2-space indented) JSON of the array of the records' field mappings
(identifiers and metadata excluded), and base64-decoding it yields exactly
that JSON text. -/
theorem claim4_upload_is_base64_of_pretty_json (w : World) (ac : AirtableConfig)
    (gc : GitHubConfig) (t : ℚ) (r : JSRecord) (ms : Int) (sha : String)
    (hrec : w.latestMatches.head? = some r)
    (hparse : jsNewDate w (lookupField r.fields ac.lastModifiedField) = JSDate.valid ms)
    (hover : t ≤ ((w.nowMs - ms : Int) : ℚ) / 1000)
    (hsha : w.httpGet (githubContentsURL gc) = Except.ok sha) :
    Effect.createOrUpdateFileContents gc.user gc.repo gc.path gc.message sha
        (toBase64 (toJSON (JSVal.arr (w.allRecords.map (fun m => JSVal.obj m.fields)))))
      ∈ (exportAirtableDataToGitHub w ac gc t).1 ∧
    decodeBase64Text
        (toBase64 (toJSON (JSVal.arr (w.allRecords.map (fun m => JSVal.obj m.fields))))) =
      some (toJSON (JSVal.arr (w.allRecords.map (fun m => JSVal.obj m.fields)))) := by
  constructor
  · rw [export_run_over_threshold w ac gc t r ms sha hrec hparse hover hsha]
    simp
  · exact decodeBase64Text_toBase64 _

/-- Witness for C4: for the records `[{"A": 1}, {"B": 2}]` the uploaded
content decodes to the specification's exact pretty-printed JSON text. -/
theorem claim4_witness :
    (Effect.createOrUpdateFileContents "zoul" "airtable-export" "data.json"
        "Update data" "oldsha"
        (toBase64 (toJSON (JSVal.arr (demoRecords.map (fun m => JSVal.obj m.fields)))))
      ∈ (exportAirtableDataToGitHub demoWorld demoAirtableConfig demoGitHubConfig 300).1 ∧
    decodeBase64Text
        (toBase64 (toJSON (JSVal.arr (demoRecords.map (fun m => JSVal.obj m.fields))))) =
      some (toJSON (JSVal.arr (demoRecords.map (fun m => JSVal.obj m.fields))))) ∧
    toJSON (JSVal.arr (demoRecords.map (fun m => JSVal.obj m.fields))) =
      "[\n  \x7b\n    \"A\": 1\n  \x7d,\n  \x7b\n    \"B\": 2\n  \x7d\n]" :=
  ⟨claim4_upload_is_base64_of_pretty_json demoWorld demoAirtableConfig demoGitHubConfig
      300 demoRecord 1577836800000 "oldsha" rfl rfl (by norm_num [demoWorld]) rfl,
   rfl⟩

/-- C5: when the content-hash read fails (e.g. the target file does not
exist), the failure propagates and no create-or-update call is ever
attempted. -/
theorem claim5_sha_failure_prevents_write (w : World) (ac : AirtableConfig)
    (gc : GitHubConfig) (t : ℚ) (r : JSRecord) (ms : Int) (e : String)
    (hrec : w.latestMatches.head? = some r)
    (hparse : jsNewDate w (lookupField r.fields ac.lastModifiedField) = JSDate.valid ms)
    (hover : t ≤ ((w.nowMs - ms : Int) : ℚ) / 1000)
    (hsha : w.httpGet (githubContentsURL gc) = Except.error e) :
    exportAirtableDataToGitHub w ac gc t =
      ([Effect.select [ac.lastModifiedField] ac.lastModifiedField true (some 1),
        Effect.logInfo exportMessage,
        Effect.selectAll,
        Effect.httpGet (githubContentsURL gc)], Except.error e) ∧
    ∀ o rp pa msg sh ct, Effect.createOrUpdateFileContents o rp pa msg sh ct ∉
      (exportAirtableDataToGitHub w ac gc t).1 := by
  have h := export_run_sha_error w ac gc t r ms e hrec hparse hover hsha
  refine ⟨h, ?_⟩
  intro o rp pa msg sh ct
  rw [h]
  simp

/-- Witness for C5: in `demoWorldNoFile` the 404 rejection of the hash
read ends the run in failure with no write attempted. -/
theorem claim5_witness :
    exportAirtableDataToGitHub demoWorldNoFile demoAirtableConfig demoGitHubConfig 300 =
      ([Effect.select ["Last Update"] "Last Update" true (some 1),
        Effect.logInfo exportMessage,
        Effect.selectAll,
        Effect.httpGet (githubContentsURL demoGitHubConfig)],
       Except.error "Request failed with status code 404") ∧
    ∀ o rp pa msg sh ct, Effect.createOrUpdateFileContents o rp pa msg sh ct ∉
      (exportAirtableDataToGitHub demoWorldNoFile demoAirtableConfig demoGitHubConfig 300).1 :=
  claim5_sha_failure_prevents_write demoWorldNoFile demoAirtableConfig demoGitHubConfig
    300 demoRecord 1577836800000 "Request failed with status code 404"
    rfl rfl (by norm_num [demoWorldNoFile, demoWorld]) rfl

/-- C6: when either required credential variable is absent from the
environment, `main` fails with a synchronous textual error and an empty
effect trace, i.e. before any network call. -/
theorem claim6_missing_credential_fails_fast (env : String → Option String) (w : World)
    (h : env "AIRTABLE_API_KEY" = none ∨ env "GITHUB_API_TOKEN" = none) :
    ∃ msg, AirtableExport.main env w = ([], Except.error msg) := by
  cases hA : env "AIRTABLE_API_KEY" with
  | none =>
      refine ⟨"Please define the AIRTABLE_API_KEY env variable.", ?_⟩
      unfold AirtableExport.main envOrDie
      rw [hA]
      rfl
  | some v =>
      rcases h with h | h
      · rw [hA] at h
        cases h
      · refine ⟨"Please define the GITHUB_API_TOKEN env variable.", ?_⟩
        unfold AirtableExport.main envOrDie
        rw [hA, h]
        rfl

/-- Witness for C6: with an empty environment, `main` fails at startup
with no effects. -/
theorem claim6_witness :
    ∃ msg, AirtableExport.main (fun _ => none) demoWorld = ([], Except.error msg) :=
  claim6_missing_credential_fails_fast (fun _ => none) demoWorld (Or.inl rfl)

/-- Counterexample to C7 as stated: a present-but-empty credential is
accepted by `envOrDie`, and with both credentials set to the empty string
the program proceeds past startup and performs the freshness query instead
of failing fast. -/
theorem claim7_counterexample :
    envOrDie (fun _ => some "") "AIRTABLE_API_KEY" = Except.ok "" ∧
    AirtableExport.main (fun _ => some "") demoWorldEmpty =
      ([Effect.select ["Last Update"] "Last Update" true (some 1),
        Effect.logWarn noDataMessage], Except.ok ()) := by
  constructor
  · rfl
  · show exportAirtableDataToGitHub demoWorldEmpty
        { apiKey := "", databaseId := "apppZX1QC3fl1RTBM",
          tableName := "Web Export Test", lastModifiedField := "Last Update" }
        { apiKey := "", user := "zoul", repo := "airtable-export",
          path := "data.json", message := "Update data" } =
      ([Effect.select ["Last Update"] "Last Update" true (some 1),
        Effect.logWarn noDataMessage], Except.ok ())
    exact export_run_no_record _ _ _ _ rfl

/-- C7 (amended): the startup credential check fails exactly when the
variable is absent (`undefined`); a present value — including the empty
string — is accepted and used as-is. -/
theorem claim7_amended_fails_iff_absent (env : String → Option String) (key : String) :
    ((∃ e, envOrDie env key = Except.error e) ↔ env key = none) ∧
    (∀ v, env key = some v → envOrDie env key = Except.ok v) := by
  cases h : env key with
  | none =>
      refine ⟨⟨fun _ => rfl, fun _ => ⟨"Please define the " ++ key ++ " env variable.", by
        unfold envOrDie; rw [h]⟩⟩, ?_⟩
      intro v hv
      exact Option.noConfusion hv
  | some v =>
      constructor
      · constructor
        · rintro ⟨e, he⟩
          unfold envOrDie at he
          rw [h] at he
          cases he
        · intro hn
          exact Option.noConfusion hn
      · intro v' hv'
        injection hv' with hvv
        subst hvv
        unfold envOrDie
        rw [h]

/-- Witness for the amended C7: the empty string is accepted. -/
theorem claim7_amended_witness :
    envOrDie (fun _ => some "") "AIRTABLE_API_KEY" = Except.ok "" :=
  (claim7_amended_fails_iff_absent (fun _ => some "") "AIRTABLE_API_KEY").2 "" rfl

/-- C8: calling `exportAirtableDataToGitHub` without an explicit cooldown
argument uses a 300-second threshold. -/
theorem claim8_default_threshold (w : World) (ac : AirtableConfig) (gc : GitHubConfig) :
    exportAirtableDataToGitHub w ac gc = exportAirtableDataToGitHub w ac gc 300 := by
  norm_num

/-- C9: an unparsable timestamp string makes the freshness query return
`Invalid Date` (not `null`, no exception); the NaN elapsed-time comparison
is false, so the run takes the full export path, like the over-threshold
case and unlike the no-data case. -/
theorem claim9_unparsable_timestamp_still_exports (w : World) (ac : AirtableConfig)
    (gc : GitHubConfig) (t : ℚ) (r : JSRecord) (stamp : String) (sha : String)
    (hrec : w.latestMatches.head? = some r)
    (hlookup : lookupField r.fields ac.lastModifiedField = some (JSVal.str stamp))
    (hparse : w.parseDate (JSVal.str stamp) = JSDate.invalid)
    (hsha : w.httpGet (githubContentsURL gc) = Except.ok sha) :
    getLastAirtableModificationTime w ac.lastModifiedField =
      ([Effect.select [ac.lastModifiedField] ac.lastModifiedField true (some 1)],
       some JSDate.invalid) ∧
    jsLt (timeSince JSDate.invalid w.nowMs) t = false ∧
    exportAirtableDataToGitHub w ac gc t =
      ([Effect.select [ac.lastModifiedField] ac.lastModifiedField true (some 1),
        Effect.logInfo exportMessage,
        Effect.selectAll,
        Effect.httpGet (githubContentsURL gc),
        Effect.createOrUpdateFileContents gc.user gc.repo gc.path gc.message sha
          (toBase64 (toJSON (JSVal.arr (w.allRecords.map (fun m => JSVal.obj m.fields)))))],
       w.createResult) := by
  refine ⟨?_, rfl,
    export_run_invalid_date w ac gc t r (JSVal.str stamp) sha hrec hlookup hparse hsha⟩
  unfold getLastAirtableModificationTime
  rw [hrec]
  simp [jsNewDate, hlookup, hparse]

/-- Witness for C9: the world with timestamp "not a date" still exports. -/
theorem claim9_witness :
    getLastAirtableModificationTime demoWorldBadStamp "Last Update" =
      ([Effect.select ["Last Update"] "Last Update" true (some 1)],
       some JSDate.invalid) ∧
    jsLt (timeSince JSDate.invalid demoWorldBadStamp.nowMs) 300 = false ∧
    exportAirtableDataToGitHub demoWorldBadStamp demoAirtableConfig demoGitHubConfig 300 =
      ([Effect.select ["Last Update"] "Last Update" true (some 1),
        Effect.logInfo exportMessage,
        Effect.selectAll,
        Effect.httpGet (githubContentsURL demoGitHubConfig),
        Effect.createOrUpdateFileContents "zoul" "airtable-export" "data.json"
          "Update data" "oldsha"
          (toBase64 (toJSON (JSVal.arr (demoRecords.map (fun m => JSVal.obj m.fields)))))],
       Except.ok ()) :=
  claim9_unparsable_timestamp_still_exports demoWorldBadStamp demoAirtableConfig
    demoGitHubConfig 300 demoBadRecord "not a date" "oldsha" rfl rfl rfl rfl

/-- C10: the content-hash read never uses the destination credential: two
configurations differing only in `apiKey` produce the identical
unauthenticated GET of the URL built from user, repo and path, with the
same result. -/
theorem claim10_sha_read_ignores_credential (w : World) (k1 k2 u r p m : String) :
    getTargetFileSHA w { apiKey := k1, user := u, repo := r, path := p, message := m } =
      getTargetFileSHA w { apiKey := k2, user := u, repo := r, path := p, message := m } ∧
    (getTargetFileSHA w { apiKey := k1, user := u, repo := r, path := p, message := m }).1 =
      [Effect.httpGet ("https://api.github.com/repos/" ++ u ++ "/" ++ r ++ "/contents/" ++ p)] :=
  ⟨rfl, rfl⟩
